import Mathlib

/-!
Shallow embedding of the modelhub gateway service (src/app.py, src/config.py).

The service is a FastAPI app with three request handlers (`generate_text`,
`analyze_image`, `health_check`) and a lazily initialized global image
classifier (`get_image_classifier`).  Each handler is embedded as a pure
function over the request data, the mutable global state (the
`image_classifier` variable, an `Option Handle`), and an explicit outcome
value describing what the external world (the Ollama HTTP backend, the PIL
decoder, the Hugging Face pipeline loader, the classifier call) did on this
request.  Raised `HTTPException`s become `Except.error` values.

Python string operations are modelled over `List Char`: `in` (substring
containment), `str.lower` (ASCII lowering, which matches Python on the ASCII
error texts involved) and `str.startswith`.
-/

/-! ## Python string primitives -/

/-- Whether the first character list is a prefix of the second. -/
def listIsPrefixOf : List Char → List Char → Bool
  | [], _ => true
  | _ :: _, [] => false
  | a :: as, b :: bs => a == b && listIsPrefixOf as bs

/-- Whether `pat` occurs as a contiguous sublist of the second argument.
Models the Python `in` operator on strings (the empty pattern matches). -/
def listIsInfixOf (pat : List Char) : List Char → Bool
  | [] => listIsPrefixOf pat []
  | b :: bs => listIsPrefixOf pat (b :: bs) || listIsInfixOf pat bs

/-- Python `pat in s` (contiguous substring containment). -/
def strContains (s pat : String) : Bool :=
  listIsInfixOf pat.data s.data

/-- Python `s.lower()`, restricted to ASCII case mapping (all error texts and
patterns inspected by the service are ASCII). -/
def strToLower (s : String) : String :=
  ⟨s.data.map Char.toLower⟩

/-- Python `s.startswith(pat)`. -/
def strStartsWith (s pat : String) : Bool :=
  listIsPrefixOf pat.data s.data

/-! ## Configuration (src/config.py, default values) -/

/-- Default Ollama model identifier (config.py:11). -/
def DEFAULT_TEXT_MODEL : String := "deepseek-optimized"

/-- Hugging Face image-classification model identifier (config.py:14). -/
def IMAGE_MODEL : String := "marqo/nsfw-image-detection-384"

/-! ## HTTP exceptions -/

/-- A FastAPI/Starlette `HTTPException` as raised by the handlers. -/
structure HTTPException where
  status_code : Nat
  detail : String
deriving DecidableEq, Repr

/-- Python `str(e)` for a Starlette `HTTPException`:
`f"{self.status_code}: {self.detail}"`. -/
def strOfHTTPException (e : HTTPException) : String :=
  toString e.status_code ++ ": " ++ e.detail

/-! ## Text generation (app.py:65-74, 135-192) -/

/-- Inbound JSON body for the text-generation endpoint.  For each optional
pydantic field, `none` means the key was omitted (the field default applies),
`some none` means an explicit JSON `null`, `some (some v)` a present value.
Floats are modelled as rationals (the service never computes with them). -/
structure TextGenerationInput where
  prompt : String
  model : Option (Option String)
  max_tokens : Option (Option Int)
  temperature : Option (Option Rat)
  stream : Option (Option Bool)

/-- The parsed `TextGenerationRequest` pydantic model (app.py:65-74). -/
structure TextGenerationRequest where
  prompt : String
  model : Option String
  max_tokens : Option Int
  temperature : Option Rat
  stream : Option Bool
deriving DecidableEq

/-- Pydantic field extraction: an omitted key takes the declared default, an
explicit `null` stays `None`, a value stays itself. -/
def fieldOrDefault (d : α) : Option (Option α) → Option α
  | none => some d
  | some v => v

/-- Pydantic validation of the request body against `TextGenerationRequest`
with the declared defaults (app.py:68-74). -/
def parse_text_generation_request (inp : TextGenerationInput) : TextGenerationRequest :=
  { prompt := inp.prompt
    model := fieldOrDefault DEFAULT_TEXT_MODEL inp.model
    max_tokens := fieldOrDefault 512 inp.max_tokens
    temperature := fieldOrDefault ((7 : Rat) / 10) inp.temperature
    stream := fieldOrDefault false inp.stream }

/-- The JSON payload posted to `{OLLAMA_BASE_URL}/api/generate`
(app.py:148-156).  `stream` is hardcoded to `False`. -/
structure OllamaPayload where
  model : Option String
  prompt : String
  stream : Bool
  num_predict : Option Int
  temperature : Option Rat
deriving DecidableEq

/-- Build the backend payload from the parsed request (app.py:148-156). -/
def buildOllamaPayload (req : TextGenerationRequest) : OllamaPayload :=
  { model := req.model
    prompt := req.prompt
    stream := false
    num_predict := req.max_tokens
    temperature := req.temperature }

/-- The `TextGenerationResponse` pydantic model (app.py:77-81).  The `model`
field carries the value the handler passes in (always `request.model`); it is
`Option String` here because `request.model` is optional in the source. -/
structure TextGenerationResponse where
  text : String
  model : Option String
deriving DecidableEq

/-- Outcome of the single `client.post` to the Ollama generate endpoint.
`response status body responseField` is an HTTP reply whose body parses as
JSON; `responseField` is `result.get("response")` (absent key gives `none`).
`jsonError t` is a 200 reply whose body fails to parse as JSON
(`response.json()` raises with text `t`).  `timeout` is
`httpx.TimeoutException`; `requestError t` is any other `httpx.RequestError`
whose `str` is `t`. -/
inductive BackendOutcome where
  | timeout
  | requestError (causeText : String)
  | response (status : Nat) (body : String) (responseField : Option String)
  | jsonError (errText : String)
deriving DecidableEq

/-- The `generate_text` handler (app.py:135-192) given the parsed request and
the backend call outcome.  Note that the `HTTPException` raised for a non-200
backend status (app.py:163-167) is itself an `Exception`, so it is caught by
the blanket `except Exception` handler (app.py:187-192) and replaced by a 500
with detail `"Internal server error: " + str(e)`. -/
def generate_text (req : TextGenerationRequest) (backend : BackendOutcome) :
    Except HTTPException TextGenerationResponse :=
  match backend with
  | .timeout => .error ⟨504, "Request to Ollama timed out"⟩
  | .requestError causeText =>
      .error ⟨503, "Failed to connect to Ollama: " ++ causeText⟩
  | .jsonError errText =>
      .error ⟨500, "Internal server error: " ++ errText⟩
  | .response status body responseField =>
      if status ≠ 200 then
        .error ⟨500, "Internal server error: " ++
          strOfHTTPException ⟨status, "Ollama API error: " ++ body⟩⟩
      else
        .ok { text := responseField.getD "", model := req.model }

/-! ## Lazy image-classifier handle (app.py:38-61) -/

/-- The loaded pipeline object, abstracted to the identifier it was loaded
for (the gateway never inspects it, only stores and calls it). -/
structure Handle where
  modelId : String
deriving DecidableEq, Repr

/-- Outcome of the `pipeline("image-classification", model=IMAGE_MODEL, ...)`
call: a loaded handle, or a raised exception with text `errText`. -/
inductive LoadOutcome where
  | ok (h : Handle)
  | failure (errText : String)
deriving DecidableEq

/-- Result of one call to `get_image_classifier`: the returned handle or the
propagated exception text, the value of the `image_classifier` global after
the call, and whether the `pipeline(...)` loader ran during the call. -/
structure AccessorResult where
  result : Except String Handle
  state : Option Handle
  loaderRan : Bool

/-- Initial value of the `image_classifier` global at process start
(app.py:39: `image_classifier = None`). -/
def initial_image_classifier : Option Handle := none

/-- The `get_image_classifier` accessor (app.py:42-61), with the global
`image_classifier` passed as explicit state and the `pipeline(...)` call
outcome as `load`.  If the global is set it is returned unchanged; otherwise
the loader runs: on success its handle is stored and returned, on failure the
exception propagates and the assignment never executes, leaving the global
`None`. -/
def get_image_classifier (state : Option Handle) (load : LoadOutcome) :
    AccessorResult :=
  match state with
  | some h => ⟨.ok h, some h, false⟩
  | none =>
      match load with
      | .ok h => ⟨.ok h, some h, true⟩
      | .failure e => ⟨.error e, none, true⟩

/-! ## Image analysis (app.py:195-247) -/

/-- The uploaded file as seen by the content-type check. -/
structure UploadFile where
  content_type : Option String

/-- Python `file.content_type and file.content_type.startswith("image/")`
(app.py:206): a missing or empty content-type is falsy. -/
def isImageContentType : Option String → Bool
  | none => false
  | some ct => strStartsWith ct "image/"

/-- Outcome of `Image.open(io.BytesIO(contents))` plus the RGB conversion:
either a decoded buffer or a raised exception with text `errText`. -/
inductive DecodeOutcome where
  | ok
  | failure (errText : String)
deriving DecidableEq

/-- Outcome of `classifier(image)`: a prediction list (label/score pairs,
scores modelled as rationals) or a raised exception with text `errText`. -/
inductive ClassifyOutcome where
  | ok (predictions : List (String × Rat))
  | failure (errText : String)

/-- The `ImageAnalysisResponse` pydantic model (app.py:84-88). -/
structure ImageAnalysisResponse where
  predictions : List (String × Rat)
  model : String
deriving DecidableEq

/-- Result of one call to the `analyze_image` handler: the HTTP-level result,
the `image_classifier` global after the call, and whether the pipeline loader
ran during the call. -/
structure AnalyzeResult where
  result : Except HTTPException ImageAnalysisResponse
  state : Option Handle
  loaderRan : Bool

/-- Detail for authentication failures (app.py:236). -/
def authDetail : String :=
  "Hugging Face authentication failed. Check HUGGINGFACE_TOKEN or api_keys.txt file."

/-- Detail for access-forbidden failures (app.py:238). -/
def forbiddenDetail : String :=
  "Access forbidden to Hugging Face model. Check model permissions or authentication."

/-- Detail for rate-limit failures (app.py:240). -/
def rateLimitDetail : String :=
  "Hugging Face API rate limit exceeded. Please try again later."

/-- Python `"401" in error_msg or "unauthorized" in error_msg.lower()`
(app.py:235). -/
def authMatch (e : String) : Bool :=
  strContains e "401" || strContains (strToLower e) "unauthorized"

/-- Python `"403" in error_msg or "forbidden" in error_msg.lower()`
(app.py:237). -/
def forbiddenMatch (e : String) : Bool :=
  strContains e "403" || strContains (strToLower e) "forbidden"

/-- Python `"rate limit" in error_msg.lower()` (app.py:239). -/
def rateLimitMatch (e : String) : Bool :=
  strContains (strToLower e) "rate limit"

/-- The substring-based classification of a caught exception text into a
user-facing detail message (app.py:233-242). -/
def classify_error_detail (e : String) : String :=
  if authMatch e then authDetail
  else if forbiddenMatch e then forbiddenDetail
  else if rateLimitMatch e then rateLimitDetail
  else "Image analysis failed: " ++ e

/-- The `analyze_image` handler (app.py:195-247).  The content-type check
(app.py:206-210) rejects with a 400 before the `try` block, so neither the
decoder nor the classifier accessor runs.  Inside the `try`, any raised
exception (decode failure, loader failure propagated out of
`get_image_classifier`, or classification failure) is caught by
`except Exception` (app.py:230) and surfaced as a 500 whose detail is
`classify_error_detail` of the exception text. -/
def analyze_image (file : UploadFile) (state : Option Handle)
    (decode : DecodeOutcome) (load : LoadOutcome)
    (classify : Handle → ClassifyOutcome) : AnalyzeResult :=
  if isImageContentType file.content_type then
    match decode with
    | .failure e => ⟨.error ⟨500, classify_error_detail e⟩, state, false⟩
    | .ok =>
        let acc := get_image_classifier state load
        match acc.result with
        | .error e => ⟨.error ⟨500, classify_error_detail e⟩, acc.state, acc.loaderRan⟩
        | .ok h =>
            match classify h with
            | .failure e =>
                ⟨.error ⟨500, classify_error_detail e⟩, acc.state, acc.loaderRan⟩
            | .ok preds =>
                ⟨.ok ⟨preds, IMAGE_MODEL⟩, acc.state, acc.loaderRan⟩
  else
    ⟨.error ⟨400, "File must be an image"⟩, state, false⟩

/-! ## Health check (app.py:114-132) -/

/-- Outcome of the probe `client.get(f"{OLLAMA_BASE_URL}/api/tags")`: an HTTP
reply with some status, or any raised exception (timeout, transport error)
with text `errText` — all exceptions are treated alike (app.py:125-126). -/
inductive ProbeOutcome where
  | response (status : Nat)
  | failure (errText : String)
deriving DecidableEq

/-- The `HealthResponse` pydantic model (app.py:91-96). -/
structure HealthResponse where
  status : String
  ollama_available : Bool
  image_model_loaded : Bool
deriving DecidableEq

/-- Python `response.status_code == 200`, with every exception leaving the
flag `False` (app.py:117-126). -/
def ollamaAvailable : ProbeOutcome → Bool
  | .response s => s == 200
  | .failure _ => false

/-- The `health_check` handler (app.py:114-132), returning the response
together with the (untouched) classifier global: the handler reads
`image_classifier is not None` and never calls `get_image_classifier`. -/
def health_check (probe : ProbeOutcome) (state : Option Handle) :
    HealthResponse × Option Handle :=
  ({ status := if ollamaAvailable probe then "healthy" else "degraded"
     ollama_available := ollamaAvailable probe
     image_model_loaded := state.isSome }, state)

/-! ## Error categories for the classification priority analysis -/

/-- The four user-facing failure categories of the image-analysis except
handler. -/
inductive ErrCategory where
  | auth
  | accessForbidden
  | rateLimited
  | generic
deriving DecidableEq

/-- Which categories an exception text matches (the generic fallback matches
everything). -/
def categoryMatches (e : String) : ErrCategory → Bool
  | .auth => authMatch e
  | .accessForbidden => forbiddenMatch e
  | .rateLimited => rateLimitMatch e
  | .generic => true

/-- Priority rank of a category in the if/elif chain; lower checks first. -/
def categoryPriority : ErrCategory → Nat
  | .auth => 0
  | .accessForbidden => 1
  | .rateLimited => 2
  | .generic => 3

/-- The detail message each category produces. -/
def categoryDetail (e : String) : ErrCategory → String
  | .auth => authDetail
  | .accessForbidden => forbiddenDetail
  | .rateLimited => rateLimitDetail
  | .generic => "Image analysis failed: " ++ e

/-! ## Sample values used by witnesses and counterexamples -/

/-- A concrete parsed request (the parse of a body that only supplies the
prompt). -/
def sampleRequest : TextGenerationRequest :=
  parse_text_generation_request ⟨"hi", none, none, none, none⟩

/-- A concrete inbound body that omits the model field. -/
def sampleInput : TextGenerationInput := ⟨"hi", none, none, none, none⟩

/-! ## Claims -/

/-- Claim C1 (code_bug evidence): on a non-success backend status, the
handler does NOT surface the backend's own status code.  The
`HTTPException(response.status_code, "Ollama API error: " + response.text)`
raised at app.py:164 is caught by the blanket `except Exception` at
app.py:187, so the client always sees a 500 whose detail wraps the intended
exception in `"Internal server error: "`.  In particular a backend 404 with
body `missing` surfaces status 500, and the spec's own 500/`boom` example
surfaces the internal-failure wrapper rather than a bare
`Ollama API error: boom` detail. -/
theorem C1_code_behavior (req : TextGenerationRequest) :
    generate_text req (.response 404 "missing" none) =
      .error ⟨500, "Internal server error: 404: Ollama API error: missing"⟩ ∧
    generate_text req (.response 500 "boom" none) =
      .error ⟨500, "Internal server error: 500: Ollama API error: boom"⟩ ∧
    (500 : Nat) ≠ 404 := by
  exact ⟨rfl, rfl, by decide⟩

/-- Claim C4: a missing content-type, or one that does not start with
`image/`, is rejected with the 400 `File must be an image` error before the
payload is decoded and before any classification attempt: the result does
not depend on the decode, load or classify outcomes, the classifier global
is unchanged, and the pipeline loader never runs. -/
theorem C4_invalid_content_type_rejected_early (file : UploadFile)
    (state : Option Handle) (decode : DecodeOutcome) (load : LoadOutcome)
    (classify : Handle → ClassifyOutcome)
    (h : isImageContentType file.content_type = false) :
    analyze_image file state decode load classify =
      ⟨.error ⟨400, "File must be an image"⟩, state, false⟩ := by
  simp [analyze_image, h]

/-- Witness for C4 at a concrete request with no content-type. -/
theorem C4_witness :
    analyze_image ⟨none⟩ none .ok (.ok ⟨IMAGE_MODEL⟩) (fun _ => .ok []) =
      ⟨.error ⟨400, "File must be an image"⟩, none, false⟩ :=
  C4_invalid_content_type_rejected_early ⟨none⟩ none .ok (.ok ⟨IMAGE_MODEL⟩)
    (fun _ => .ok []) (by decide)

/-- Claim C6: the accessor is lazy and idempotent under sequential use.  The
global starts out unset at process start; a first successful call stores the
loaded handle and returns it; any later call started from the resulting
state returns that same handle, leaves the state unchanged, and does not run
the loader — whatever the loader outcome parameter would be. -/
theorem C6_lazy_idempotent :
    initial_image_classifier = none ∧
    (∀ (h : Handle) (load : LoadOutcome),
      get_image_classifier (some h) load = ⟨.ok h, some h, false⟩) ∧
    (∀ h : Handle,
      get_image_classifier none (.ok h) = ⟨.ok h, some h, true⟩) ∧
    (∀ (h : Handle) (load2 : LoadOutcome),
      get_image_classifier ((get_image_classifier none (.ok h)).state) load2 =
        ⟨.ok h, some h, false⟩) :=
  ⟨rfl, fun _ _ => rfl, fun _ => rfl, fun _ _ => rfl⟩

/-- Claim C7: a failed initialization propagates the exception to the caller
and leaves the global unset (no broken handle is memoized), so a later call
runs the loader again. -/
theorem C7_load_failure_not_memoized (e : String) (load2 : LoadOutcome) :
    (get_image_classifier none (.failure e)).result = .error e ∧
    (get_image_classifier none (.failure e)).state = none ∧
    (get_image_classifier
        ((get_image_classifier none (.failure e)).state) load2).loaderRan = true := by
  refine ⟨rfl, rfl, ?_⟩
  cases load2 <;> rfl

/-- Counterexample to claim C2 as stated: a payload with a valid image
content-type whose bytes fail to decode (PIL raises
`cannot identify image file`) is surfaced with HTTP status 500 through the
generic except handler, not with a 400 InvalidInput rejection. -/
theorem C2_counterexample :
    (analyze_image ⟨some "image/png"⟩ none
        (.failure "cannot identify image file") (.ok ⟨IMAGE_MODEL⟩)
        (fun _ => .ok [])).result =
      .error ⟨500, "Image analysis failed: cannot identify image file"⟩ ∧
    (500 : Nat) ≠ 400 :=
  ⟨rfl, by decide⟩

/-- Claim C2 as amended: when the content-type passes validation but the
byte payload fails to decode, the flow fails with HTTP 500 and the detail
produced by the substring classification of the decode exception text (the
generic `except Exception` path), not with an InvalidInput rejection; the
classifier global is unchanged and the loader does not run. -/
theorem C2_amended_decode_failure_is_500 (file : UploadFile)
    (state : Option Handle) (e : String) (load : LoadOutcome)
    (classify : Handle → ClassifyOutcome)
    (h : isImageContentType file.content_type = true) :
    analyze_image file state (.failure e) load classify =
      ⟨.error ⟨500, classify_error_detail e⟩, state, false⟩ := by
  simp [analyze_image, h]

/-- Witness for the amended C2 at a concrete decode failure. -/
theorem C2_amended_witness :
    analyze_image ⟨some "image/jpeg"⟩ none (.failure "broken header")
        (.ok ⟨IMAGE_MODEL⟩) (fun _ => .ok []) =
      ⟨.error ⟨500, classify_error_detail "broken header"⟩, none, false⟩ :=
  C2_amended_decode_failure_is_500 ⟨some "image/jpeg"⟩ none "broken header"
    (.ok ⟨IMAGE_MODEL⟩) (fun _ => .ok []) (by decide)

/-- Counterexample to claim C3 as stated: on a transport-level failure
(`httpx.RequestError` with text `Connection refused`), the BackendUnreachable
path returns a detail that contains the raw exception text verbatim. -/
theorem C3_counterexample :
    generate_text sampleRequest (.requestError "Connection refused") =
      .error ⟨503, "Failed to connect to Ollama: Connection refused"⟩ ∧
    strContains "Failed to connect to Ollama: Connection refused"
      "Connection refused" = true :=
  ⟨rfl, by decide⟩

/-- Claim C3 as amended: only the timeout detail is a fixed message; the
BackendUnreachable path, the internal-failure path (here the JSON-decode
failure) and the unclassified image-analysis fallback all embed the raw
exception text `str(e)` verbatim in the client-visible detail. -/
theorem C3_amended_details (req : TextGenerationRequest)
    (cause errText e : String)
    (hA : authMatch e = false) (hF : forbiddenMatch e = false)
    (hR : rateLimitMatch e = false) :
    generate_text req .timeout = .error ⟨504, "Request to Ollama timed out"⟩ ∧
    generate_text req (.requestError cause) =
      .error ⟨503, "Failed to connect to Ollama: " ++ cause⟩ ∧
    generate_text req (.jsonError errText) =
      .error ⟨500, "Internal server error: " ++ errText⟩ ∧
    classify_error_detail e = "Image analysis failed: " ++ e := by
  refine ⟨rfl, rfl, rfl, ?_⟩
  simp [classify_error_detail, hA, hF, hR]

/-- Witness for the amended C3 at concrete failure texts. -/
theorem C3_amended_witness :
    generate_text sampleRequest .timeout =
      .error ⟨504, "Request to Ollama timed out"⟩ ∧
    generate_text sampleRequest (.requestError "refused") =
      .error ⟨503, "Failed to connect to Ollama: " ++ "refused"⟩ ∧
    generate_text sampleRequest (.jsonError "bad json") =
      .error ⟨500, "Internal server error: " ++ "bad json"⟩ ∧
    classify_error_detail "oops" = "Image analysis failed: " ++ "oops" :=
  C3_amended_details sampleRequest "refused" "bad json" "oops"
    (by decide) (by decide) (by decide)

/-- Claim C8: the aggregate health status is `healthy` exactly when the
probe returned HTTP 200, and `degraded` on every other outcome (any non-200
status, or any raised exception uniformly); the classifier global never
influences the label and is returned untouched (the handler never triggers
handle creation). -/
theorem C8_health_status (probe : ProbeOutcome) (state : Option Handle) :
    ((health_check probe state).1.status = "healthy" ↔ probe = .response 200) ∧
    ((health_check probe state).1.status = "healthy" ∨
      (health_check probe state).1.status = "degraded") ∧
    (health_check probe state).2 = state ∧
    ∀ state2 : Option Handle,
      (health_check probe state2).1.status = (health_check probe state).1.status := by
  refine ⟨?_, ?_, rfl, fun state2 => rfl⟩
  · cases probe with
    | failure e => simp [health_check, ollamaAvailable]
    | response s =>
        by_cases hs : s = 200
        · subst hs; simp [health_check, ollamaAvailable]
        · simp [health_check, ollamaAvailable, hs]
  · cases probe with
    | failure e => exact Or.inr rfl
    | response s =>
        by_cases hs : s = 200
        · subst hs; exact Or.inl rfl
        · refine Or.inr ?_
          simp [health_check, ollamaAvailable, hs]

/-- Claim C9: a request body that omits the model field is parsed with the
configured default model identifier, and every successful response carries
exactly the model value that was placed in the backend payload (both are
`request.model`). -/
theorem C9_default_model_and_echo (inp : TextGenerationInput)
    (backend : BackendOutcome) :
    (inp.model = none →
      (parse_text_generation_request inp).model = some DEFAULT_TEXT_MODEL) ∧
    ∀ resp : TextGenerationResponse,
      generate_text (parse_text_generation_request inp) backend = .ok resp →
        resp.model =
          (buildOllamaPayload (parse_text_generation_request inp)).model := by
  constructor
  · intro h
    simp [parse_text_generation_request, h, fieldOrDefault]
  · intro resp hok
    cases backend with
    | timeout => exact Except.noConfusion hok
    | requestError c => exact Except.noConfusion hok
    | jsonError t => exact Except.noConfusion hok
    | response s body rf =>
        simp only [generate_text] at hok
        split at hok
        · exact Except.noConfusion hok
        · cases hok
          rfl

/-- Witness for C9: a body supplying only the prompt gets the default model,
and the echoed response model equals the payload model. -/
theorem C9_witness :
    (parse_text_generation_request sampleInput).model = some DEFAULT_TEXT_MODEL ∧
    ({ text := "hello", model := some DEFAULT_TEXT_MODEL } :
        TextGenerationResponse).model =
      (buildOllamaPayload (parse_text_generation_request sampleInput)).model :=
  ⟨(C9_default_model_and_echo sampleInput (.response 200 "" (some "hello"))).1 rfl,
   (C9_default_model_and_echo sampleInput (.response 200 "" (some "hello"))).2
     { text := "hello", model := some DEFAULT_TEXT_MODEL } rfl⟩

/-- Counterexample to claim C10 as stated: the text `403 rate limit` matches
two categories (access-forbidden and rate-limit) and is reported with the
forbidden message, not with the highest-priority authentication message the
claim asserts for every multi-category match. -/
theorem C10_counterexample :
    forbiddenMatch "403 rate limit" = true ∧
    rateLimitMatch "403 rate limit" = true ∧
    classify_error_detail "403 rate limit" = forbiddenDetail ∧
    classify_error_detail "403 rate limit" ≠ authDetail :=
  ⟨by decide, by decide, by decide, by decide⟩

/-- Claim C10 as amended: the substring checks run in the fixed priority
order authentication, access-forbidden, rate-limit, generic fallback, so the
reported detail is always the one of the highest-priority (lowest-rank)
category the failure text matches. -/
theorem C10_amended_priority (e : String) :
    ∃ c : ErrCategory, categoryMatches e c = true ∧
      classify_error_detail e = categoryDetail e c ∧
      ∀ c2 : ErrCategory,
        categoryMatches e c2 = false ∨ categoryPriority c ≤ categoryPriority c2 := by
  cases hA : authMatch e with
  | true =>
      exact ⟨.auth, hA, by simp [classify_error_detail, hA, categoryDetail],
        fun c2 => Or.inr (Nat.zero_le _)⟩
  | false =>
      cases hF : forbiddenMatch e with
      | true =>
          refine ⟨.accessForbidden, hF,
            by simp [classify_error_detail, hA, hF, categoryDetail], ?_⟩
          intro c2
          cases c2 with
          | auth => exact Or.inl hA
          | accessForbidden => exact Or.inr (Nat.le_refl _)
          | rateLimited => exact Or.inr (by decide)
          | generic => exact Or.inr (by decide)
      | false =>
          cases hR : rateLimitMatch e with
          | true =>
              refine ⟨.rateLimited, hR,
                by simp [classify_error_detail, hA, hF, hR, categoryDetail], ?_⟩
              intro c2
              cases c2 with
              | auth => exact Or.inl hA
              | accessForbidden => exact Or.inl hF
              | rateLimited => exact Or.inr (Nat.le_refl _)
              | generic => exact Or.inr (by decide)
          | false =>
              refine ⟨.generic, rfl,
                by simp [classify_error_detail, hA, hF, hR, categoryDetail], ?_⟩
              intro c2
              cases c2 with
              | auth => exact Or.inl hA
              | accessForbidden => exact Or.inl hF
              | rateLimited => exact Or.inl hR
              | generic => exact Or.inr (Nat.le_refl _)
